import Mathlib

/-!
Formal model of the transcript-pipeline classifier orchestration
(`src/classifier/classifier.py`): the JSON response extractor
(`parse_json_response`), the degraded heuristic responder
(`heuristic_fallback`), the two backend adapters (`classify_with_local`,
`classify_with_api`) and the fallback controller (`classify`).

Python data is modelled shallowly: JSON values as an inductive `Json` with
numbers as rationals, Python exceptions as an error type `PyErr` carried in
`Except`, the module-level backend clients as an explicit environment `Env`
holding optional oracles `String → Except PyErr String` (the raw text a
configured backend returns for a request, or the transport error it raises),
and each operation additionally returns the list of backend network calls it
performed, so that call-count properties can be stated.
-/

/-- JSON values as decoded by `json.loads`: numbers are modelled as rationals
(`json.loads` produces `int`/`float`; the decimals appearing in this program
are exactly representable). -/
inductive Json where
  | null : Json
  | bool : Bool → Json
  | num : ℚ → Json
  | str : String → Json
  | arr : List Json → Json
  | obj : List (String × Json) → Json

/-- Python exceptions relevant to the classifier, by class.  `valueError` is
the `MalformedResponse` condition raised by `parse_json_response`;
`runtimeError` is the `BackendUnavailable` condition raised by an
unconfigured adapter; `httpException` models `fastapi.HTTPException`
(in Python a subclass of `Exception`). -/
inductive PyErr where
  | valueError : String → PyErr
  | runtimeError : String → PyErr
  | attributeError : String → PyErr
  | typeError : String → PyErr
  | keyError : String → PyErr
  | validationError : String → PyErr
  | httpException : Nat → String → PyErr
deriving DecidableEq, Repr

/-- Discriminator for the `MalformedResponse` condition (`ValueError`). -/
def PyErr.isValueError : PyErr → Bool
  | .valueError _ => true
  | _ => false

/-- Python `str` whitespace as used by `str.split()`, `str.strip()` and the
regex class `\s` (ASCII part: space, tab, newline, carriage return, vertical
tab, form feed). -/
def pyIsSpace (c : Char) : Bool :=
  c = ' ' || c = '\t' || c = '\n' || c = '\r' || c = '\x0b' || c = '\x0c'

/-- JSON whitespace skipped by `json.loads`. -/
def jsonWS (c : Char) : Bool :=
  c = ' ' || c = '\t' || c = '\n' || c = '\r'

/-- Does `cs` start with the pattern list `p`? -/
def leadsWith : List Char → List Char → Bool
  | [], _ => true
  | _ :: _, [] => false
  | p :: ps, c :: cs => (c = p) && leadsWith ps cs

/-- Does `cs` end with the pattern list `p`? -/
def trailsWith (p cs : List Char) : Bool :=
  leadsWith p.reverse cs.reverse

/-- The triple-backtick fence marker. -/
def fenceTok : List Char := ['\x60', '\x60', '\x60']

/-- The characters of the optional fence tag `json`. -/
def jsonTag : List Char := ['j', 's', 'o', 'n']

/-- Value of a run of decimal digit characters. -/
def natOfDigits (ds : List Char) : Nat :=
  ds.foldl (fun n c => n * 10 + (c.toNat - '0'.toNat)) 0

/-- Value of a hex digit character, if it is one. -/
def hexVal (c : Char) : Option Nat :=
  if '0' ≤ c ∧ c ≤ '9' then some (c.toNat - '0'.toNat)
  else if 'a' ≤ c ∧ c ≤ 'f' then some (c.toNat - 'a'.toNat + 10)
  else if 'A' ≤ c ∧ c ≤ 'F' then some (c.toNat - 'A'.toNat + 10)
  else none

/-- JSON string body scanner (cursor just past the opening quote): returns the
decoded string and the remainder past the closing quote.  Escapes and the
strict-mode rejection of raw control characters follow `json.loads`. -/
def parseStrBody (fuel : Nat) (cs : List Char) : Option (String × List Char) :=
  match fuel, cs with
  | 0, _ => none
  | _, [] => none
  | fuel + 1, c :: rest =>
    if c = '"' then some ("", rest)
    else if c = '\\' then
      match rest with
      | [] => none
      | e :: rest2 =>
        let esc : Option (Char × List Char) :=
          if e = '"' then some ('"', rest2)
          else if e = '\\' then some ('\\', rest2)
          else if e = '/' then some ('/', rest2)
          else if e = 'b' then some ('\x08', rest2)
          else if e = 'f' then some ('\x0c', rest2)
          else if e = 'n' then some ('\n', rest2)
          else if e = 'r' then some ('\r', rest2)
          else if e = 't' then some ('\t', rest2)
          else if e = 'u' then
            match rest2 with
            | h1 :: h2 :: h3 :: h4 :: rest3 =>
              match hexVal h1, hexVal h2, hexVal h3, hexVal h4 with
              | some a, some b, some c2, some d =>
                let n := ((a * 16 + b) * 16 + c2) * 16 + d
                if n.isValidChar then some (Char.ofNat n, rest3) else none
              | _, _, _, _ => none
            | _ => none
          else none
        match esc with
        | some (ch, rest3) =>
          match parseStrBody fuel rest3 with
          | some (s, r) => some (⟨ch :: s.data⟩, r)
          | none => none
        | none => none
    else if c.toNat < 32 then none
    else
      match parseStrBody fuel rest with
      | some (s, r) => some (⟨c :: s.data⟩, r)
      | none => none

/-- JSON number scanner, following the grammar used by `json.loads`
(`-?(0|[1-9][0-9]*)(\.[0-9]+)?([eE][-+]?[0-9]+)?`), evaluated exactly as a
rational. -/
def parseNum (cs : List Char) : Option (ℚ × List Char) :=
  let signSplit : Bool × List Char :=
    match cs with
    | '-' :: r => (true, r)
    | _ => (false, cs)
  let neg := signSplit.1
  let cs1 := signSplit.2
  match cs1 with
  | [] => none
  | c :: _ =>
    if ¬ c.isDigit then none
    else
      let intSplit : List Char × List Char :=
        if c = '0' then (['0'], cs1.tail) else cs1.span Char.isDigit
      let ipart := intSplit.1
      let rest := intSplit.2
      let fracSplit : List Char × List Char :=
        match rest with
        | '.' :: r =>
          let fs := r.span Char.isDigit
          if fs.1 = [] then ([], rest) else (fs.1, fs.2)
        | _ => ([], rest)
      let fracDigits := fracSplit.1
      let rest2 := fracSplit.2
      let expSplit : Int × List Char :=
        match rest2 with
        | e :: r =>
          if e = 'e' ∨ e = 'E' then
            let signedTail : Int × List Char :=
              match r with
              | '+' :: rr => (1, rr)
              | '-' :: rr => (-1, rr)
              | _ => (1, r)
            let es := signedTail.2.span Char.isDigit
            if es.1 = [] then (0, rest2)
            else (signedTail.1 * (natOfDigits es.1 : Int), es.2)
          else (0, rest2)
        | [] => (0, rest2)
      let mantNum : Int :=
        (natOfDigits ipart * 10 ^ fracDigits.length + natOfDigits fracDigits : Nat)
      let signedNum : Int := if neg then -mantNum else mantNum
      let mantDen : Nat := 10 ^ fracDigits.length
      let q : ℚ :=
        match expSplit.1 with
        | .ofNat e => mkRat (signedNum * ((10 ^ e : Nat) : Int)) mantDen
        | .negSucc e => mkRat signedNum (mantDen * 10 ^ (e + 1))
      some (q, expSplit.2)

/-- Insertion into a decoded JSON object with `dict` semantics: a repeated key
keeps its first position and takes the last value. -/
def insertKey : List (String × Json) → String → Json → List (String × Json)
  | [], k, v => [(k, v)]
  | (k2, v2) :: rest, k, v =>
    if k2 = k then (k, v) :: rest else (k2, v2) :: insertKey rest k v

mutual

/-- Recursive-descent JSON value scanner mirroring `json.loads` (fuelled for
termination; `jsonLoadsL` supplies ample fuel). -/
def parseVal (fuel : Nat) (cs : List Char) : Option (Json × List Char) :=
  match fuel with
  | 0 => none
  | fuel + 1 =>
    match cs with
    | [] => none
    | c :: rest =>
      if c = '\x7b' then
        let r := rest.dropWhile jsonWS
        match r with
        | '\x7d' :: r2 => some (.obj [], r2)
        | _ => parseMembers fuel r []
      else if c = '[' then
        let r := rest.dropWhile jsonWS
        match r with
        | ']' :: r2 => some (.arr [], r2)
        | _ => parseElems fuel r []
      else if c = '"' then
        match parseStrBody fuel rest with
        | some (s, r) => some (.str s, r)
        | none => none
      else if c = 't' then
        if leadsWith ['r', 'u', 'e'] rest then some (.bool true, rest.drop 3) else none
      else if c = 'f' then
        if leadsWith ['a', 'l', 's', 'e'] rest then some (.bool false, rest.drop 4) else none
      else if c = 'n' then
        if leadsWith ['u', 'l', 'l'] rest then some (.null, rest.drop 3) else none
      else
        match parseNum cs with
        | some (q, r) => some (.num q, r)
        | none => none

/-- Object member scanner: cursor at an expected key string (whitespace
already skipped), accumulating decoded members. -/
def parseMembers (fuel : Nat) (cs : List Char) (acc : List (String × Json)) :
    Option (Json × List Char) :=
  match fuel with
  | 0 => none
  | fuel + 1 =>
    match cs with
    | '"' :: rest =>
      match parseStrBody fuel rest with
      | some (k, r1) =>
        match r1.dropWhile jsonWS with
        | ':' :: r3 =>
          match parseVal fuel (r3.dropWhile jsonWS) with
          | some (v, r4) =>
            let acc2 := insertKey acc k v
            match r4.dropWhile jsonWS with
            | ',' :: r6 => parseMembers fuel (r6.dropWhile jsonWS) acc2
            | '\x7d' :: r6 => some (.obj acc2, r6)
            | _ => none
          | none => none
        | _ => none
      | none => none
    | _ => none

/-- Array element scanner: cursor at an expected value (whitespace already
skipped), accumulating decoded elements in reverse. -/
def parseElems (fuel : Nat) (cs : List Char) (acc : List Json) :
    Option (Json × List Char) :=
  match fuel with
  | 0 => none
  | fuel + 1 =>
    match parseVal fuel cs with
    | some (v, r) =>
      match r.dropWhile jsonWS with
      | ',' :: r2 => parseElems fuel (r2.dropWhile jsonWS) (v :: acc)
      | ']' :: r2 => some (.arr (v :: acc).reverse, r2)
      | _ => none
    | none => none

end

/-- `json.loads` on a character list: skip surrounding whitespace, decode one
value, and reject trailing data. -/
def jsonLoadsL (cs : List Char) : Except String Json :=
  let s := cs.dropWhile jsonWS
  match parseVal (2 * s.length + 4) s with
  | some (v, rest) =>
    if rest.dropWhile jsonWS = [] then .ok v else .error "Extra data"
  | none => .error "Expecting value"

/-- Python `str.strip()` on a character list. -/
def pyStripL (cs : List Char) : List Char :=
  ((cs.dropWhile pyIsSpace).reverse.dropWhile pyIsSpace).reverse

/-- Python `str.strip()`. -/
def pyStrip (s : String) : String := ⟨pyStripL s.data⟩

/-- Does a closing fence follow, after optional whitespace?  This decides
whether the lazy group of `re.search` may stop here (the trailing
`\s*` of the pattern is deterministic: a backtick is not whitespace). -/
def closesFence (cs : List Char) : Bool :=
  leadsWith fenceTok (cs.dropWhile pyIsSpace)

/-- The lazy body scan of the group `(\{.*?\})` (with `re.DOTALL`): cursor
just past the opening brace; returns the shortest body whose closing brace is
followed by `\s*` and a fence. -/
def lazyBrace : List Char → Option (List Char)
  | [] => none
  | c :: rest =>
    if c = '\x7d' && closesFence rest then some []
    else
      match lazyBrace rest with
      | some content => some (c :: content)
      | none => none

/-- Match the part of the pattern after the fence tag: `\s*(\{.*?\})\s*` and
the closing fence, returning the captured group (braces included). -/
def braceFrom (r : List Char) : Option (List Char) :=
  match r.dropWhile pyIsSpace with
  | '\x7b' :: tail => (lazyBrace tail).map (fun content => '\x7b' :: (content ++ ['\x7d']))
  | _ => none

/-- Match of the whole pattern anchored at the current position: an opening
fence, an optional `json` tag (tried first, as the regex prefers), then
`braceFrom`. -/
def matchAt (cs : List Char) : Option (List Char) :=
  if leadsWith fenceTok cs then
    let rest := cs.drop 3
    match (if leadsWith jsonTag rest then braceFrom (rest.drop 4) else none) with
    | some cap => some cap
    | none => braceFrom rest
  else none

/-- Model of the fenced-block `re.search` (with `re.DOTALL`) from
`parse_json_response`: leftmost starting position wins; returns the captured
group. -/
def searchFence : List Char → Option (List Char)
  | [] => none
  | c :: rest =>
    match matchAt (c :: rest) with
    | some cap => some cap
    | none => searchFence rest

/-- Model of `re.sub(r'^...(?:json)?\s*', '', text)` (with the fence marker in
place of the dots): strip one leading fence marker, its optional tag, and
following whitespace. -/
def stripLeadingFenceL (cs : List Char) : List Char :=
  if leadsWith fenceTok cs then
    let r := cs.drop 3
    let r2 := if leadsWith jsonTag r then r.drop 4 else r
    r2.dropWhile pyIsSpace
  else cs

/-- Drop trailing Python whitespace. -/
def dropTrailWS (cs : List Char) : List Char :=
  (cs.reverse.dropWhile pyIsSpace).reverse

/-- Model of `re.sub(r'\s*...$', '', text)` (with the fence marker in place of
the dots): without `re.MULTILINE`, `$` matches at the end of the string or
just before one final newline, so a trailing fence (and the whitespace run
before it) is removed in either position. -/
def stripTrailingFenceL (cs : List Char) : List Char :=
  if trailsWith fenceTok cs then dropTrailWS (cs.take (cs.length - 3))
  else if trailsWith (fenceTok ++ ['\n']) cs then
    dropTrailWS (cs.take (cs.length - 4)) ++ ['\n']
  else cs

/-- The normalisation pipeline of `parse_json_response` before decoding:
strip, prefer the first fenced brace group, then strip stray fence markers. -/
def normalizeText (s : String) : List Char :=
  let cs := pyStripL s.data
  let cs2 :=
    match searchFence cs with
    | some cap => cap
    | none => cs
  stripTrailingFenceL (stripLeadingFenceL cs2)

/-- `parse_json_response` (classifier.py:57-71): normalise markdown noise and
decode; a decode failure becomes `ValueError("Failed to parse JSON: ...")`. -/
def parse_json_response (s : String) : Except PyErr Json :=
  (jsonLoadsL (normalizeText s)).mapError
    (fun e => PyErr.valueError ("Failed to parse JSON: " ++ e))

/-- Python `str.split()` with no argument: split on runs of whitespace,
dropping empty tokens (auxiliary with an accumulator for the current word,
kept reversed). -/
def splitWSAux : List Char → List Char → List String
  | [], acc => if acc.isEmpty then [] else [⟨acc.reverse⟩]
  | c :: rest, acc =>
    if pyIsSpace c then
      if acc.isEmpty then splitWSAux rest [] else ⟨acc.reverse⟩ :: splitWSAux rest []
    else splitWSAux rest (c :: acc)

/-- Python `text.split()`. -/
def pySplit (s : String) : List String := splitWSAux s.data []

/-- The tag list built by `heuristic_fallback` (classifier.py:79-84,91): the
three base tags, plus `"short"` below 100 tokens or `"long"` above 1000,
sliced to the first 7. -/
def heurTags (t : String) : List String :=
  ((["uncategorized", "transcript", "unclassified"]) ++
    (if (pySplit t).length < 100 then ["short"]
     else if 1000 < (pySplit t).length then ["long"] else [])).take 7

/-- The summary built by `heuristic_fallback` (classifier.py:86-88): the first
`min 50 word_count` tokens joined by single spaces, with an ellipsis when more
than 50 tokens exist. -/
def heurSummary (t : String) : String :=
  (" ".intercalate ((pySplit t).take (min 50 (pySplit t).length))) ++
    (if 50 < (pySplit t).length then "..." else "")

/-- `heuristic_fallback` (classifier.py:74-94), as the dict it returns
(`mkRat 3 10` is the fixed confidence 0.3). -/
def heuristic_fallback (t : String) : Json :=
  Json.obj [("tags", Json.arr ((heurTags t).map Json.str)),
            ("summary", Json.str (heurSummary t)),
            ("confidence", Json.num (mkRat 3 10))]

/-- The request body of `POST /classify` (`ClassifyRequest`). -/
structure ClassifyRequest where
  text : String
  source : Option String
  filepath : Option String
  force_local : Bool
  force_api : Bool
deriving DecidableEq, Repr

/-- The response body of `POST /classify` (`ClassifyResponse`). -/
structure ClassifyResponse where
  tags : List String
  summary : String
  confidence : ℚ
  model : String
  fallback_used : Bool
deriving DecidableEq, Repr

/-- The process-wide configuration fixed at start-up: the optional backend
clients (each modelled as an oracle from request text to the raw reply string
or the transport error the call raises), the `USE_LOCAL_FIRST` flag, and the
`LOCAL_MODEL` identifier. -/
structure Env where
  local_client : Option (String → Except PyErr String)
  anthropic_client : Option (String → Except PyErr String)
  use_local_first : Bool
  local_model : String

/-- A network invocation of one of the two backends. -/
inductive Call where
  | toLocal : Call
  | toApi : Call
deriving DecidableEq, Repr

/-- The remote model identifier used by `classify_with_api`. -/
def API_MODEL : String := "claude-3-5-sonnet-20241022"

/-- Association lookup on a decoded JSON object, as `dict` subscription
(`result["k"]`): `KeyError` when absent, `TypeError` on a non-mapping. -/
def assocFind : List (String × Json) → String → Option Json
  | [], _ => none
  | (k, v) :: rest, key => if k = key then some v else assocFind rest key

/-- Python `result[k]` on a decoded value. -/
def dictGet (j : Json) (k : String) : Except PyErr Json :=
  match j with
  | .obj kvs =>
    match assocFind kvs k with
    | some v => .ok v
    | none => .error (.keyError k)
  | _ => .error (.typeError "not subscriptable")

/-- Python `result.setdefault(k, v)`: on a dict, insert at the end when the
key is absent; on any non-mapping, `AttributeError`. -/
def setdefault (j : Json) (k : String) (v : Json) : Except PyErr Json :=
  match j with
  | .obj kvs =>
    match assocFind kvs k with
    | some _ => .ok (.obj kvs)
    | none => .ok (.obj (kvs ++ [(k, v)]))
  | _ => .error (.attributeError "setdefault")

/-- Python `result["confidence"] < 0.7`: numbers compare numerically, `bool`
compares as 0/1, anything else raises `TypeError`. -/
def pyLtNum (j : Json) (q : ℚ) : Except PyErr Bool :=
  match j with
  | .num x => .ok (decide (x < q))
  | .bool b => .ok (decide ((if b then (1 : ℚ) else 0) < q))
  | _ => .error (.typeError "unorderable types")

/-- The shared tail of both adapters (classifier.py:113-119 and 137-143):
decode the raw reply and fill the three key defaults. -/
def parseAndDefault (content : String) : Except PyErr Json := do
  let result ← parse_json_response content
  let r1 ← setdefault result "tags" (Json.arr [])
  let r2 ← setdefault r1 "summary" (Json.str "")
  setdefault r2 "confidence" (Json.num (mkRat 1 2))

/-- `classify_with_local` (classifier.py:97-119): fail with `RuntimeError`
when unconfigured (before any network call); otherwise send the first 4000
characters to the local client and decode.  The second component records the
network calls performed. -/
def classify_with_local (env : Env) (text : String) :
    Except PyErr Json × List Call :=
  match env.local_client with
  | none => (.error (.runtimeError "Local vLLM not configured"), [])
  | some client =>
    match client (text.take 4000) with
    | .error e => (.error e, [Call.toLocal])
    | .ok content => (parseAndDefault content, [Call.toLocal])

/-- `classify_with_api` (classifier.py:122-143), the remote twin. -/
def classify_with_api (env : Env) (text : String) :
    Except PyErr Json × List Call :=
  match env.anthropic_client with
  | none => (.error (.runtimeError "Anthropic API not configured"), [])
  | some client =>
    match client (text.take 4000) with
    | .error e => (.error e, [Call.toApi])
    | .ok content => (parseAndDefault content, [Call.toApi])

/-- The inner `try` body of the local-first branch (classifier.py:184-191):
local call, confidence gate, optional escalation to the remote backend. -/
def localFirstBody (env : Env) (req : ClassifyRequest) :
    Except PyErr (Json × String × Bool) × List Call :=
  match classify_with_local env req.text with
  | (.error e, cs) => (.error e, cs)
  | (.ok result, cs) =>
    match dictGet result "confidence" with
    | .error e => (.error e, cs)
    | .ok conf =>
      match pyLtNum conf (mkRat 7 10) with
      | .error e => (.error e, cs)
      | .ok islow =>
        if islow && env.anthropic_client.isSome then
          match classify_with_api env req.text with
          | (.ok r2, cs2) => (.ok (r2, API_MODEL, true), cs ++ cs2)
          | (.error e, cs2) => (.error e, cs ++ cs2)
        else (.ok (result, env.local_model, false), cs)

/-- The local-first branch with its `except` clause (classifier.py:183-198):
any failure of the inner body is retried against the remote backend when one
is configured, else re-raised. -/
def localFirstTry (env : Env) (req : ClassifyRequest) :
    Except PyErr (Json × String × Bool) × List Call :=
  match localFirstBody env req with
  | (.ok out, cs) => (.ok out, cs)
  | (.error e, cs) =>
    if env.anthropic_client.isSome then
      match classify_with_api env req.text with
      | (.ok r2, cs2) => (.ok (r2, API_MODEL, true), cs ++ cs2)
      | (.error e2, cs2) => (.error e2, cs ++ cs2)
    else (.error e, cs)

/-- The `try` block of `classify` (classifier.py:176-206): the branch policy
over the force flags and the configured backends, producing the result dict,
the model identifier and the fallback flag — or the exception that escapes
the block. -/
def classifyTry (env : Env) (req : ClassifyRequest) :
    Except PyErr (Json × String × Bool) × List Call :=
  if req.force_api then
    match classify_with_api env req.text with
    | (.ok r, cs) => (.ok (r, API_MODEL, false), cs)
    | (.error e, cs) => (.error e, cs)
  else if req.force_local then
    match classify_with_local env req.text with
    | (.ok r, cs) => (.ok (r, env.local_model, false), cs)
    | (.error e, cs) => (.error e, cs)
  else if env.use_local_first && env.local_client.isSome then
    localFirstTry env req
  else if env.anthropic_client.isSome then
    match classify_with_api env req.text with
    | (.ok r, cs) => (.ok (r, API_MODEL, false), cs)
    | (.error e, cs) => (.error e, cs)
  else
    (.error (.httpException 503 "No classification backend configured"), [])

/-- Element-wise validation of a `List[str]` pydantic field. -/
def strListOf : List Json → Except PyErr (List String)
  | [] => .ok []
  | .str s :: rest => (strListOf rest).map (fun l => s :: l)
  | _ :: _ => .error (.validationError "str type expected")

/-- Validation of a `List[str]` pydantic field. -/
def asStrList : Json → Except PyErr (List String)
  | .arr xs => strListOf xs
  | _ => .error (.validationError "list type expected")

/-- Validation of a `str` pydantic field. -/
def asStr : Json → Except PyErr String
  | .str s => .ok s
  | _ => .error (.validationError "str type expected")

/-- Validation of a `float` pydantic field. -/
def asNum : Json → Except PyErr ℚ
  | .num q => .ok q
  | _ => .error (.validationError "float type expected")

/-- The pydantic response construction at classifier.py:212-218: the three
dict subscriptions followed by field validation (`List[str]`, `str`,
`float`).  This happens outside the `try` block, so its failure surfaces. -/
def buildResponse (result : Json) (model : String) (fb : Bool) :
    Except PyErr ClassifyResponse := do
  let tagsJ ← dictGet result "tags"
  let sumJ ← dictGet result "summary"
  let confJ ← dictGet result "confidence"
  let tags ← asStrList tagsJ
  let summary ← asStr sumJ
  let confidence ← asNum confJ
  pure ⟨tags, summary, confidence, model, fb⟩

/-- `classify` (classifier.py:166-218): the 400 guard runs before the `try`
block; the blanket `except Exception` at line 207 converts every exception
escaping the block — `HTTPException` included — into the heuristic result
with `model="heuristic"` and `fallback_used=True`. -/
def classify (env : Env) (req : ClassifyRequest) :
    Except PyErr ClassifyResponse × List Call :=
  if req.text = "" ∨ pyStrip req.text = "" then
    (.error (.httpException 400 "Text cannot be empty"), [])
  else
    match classifyTry env req with
    | (.ok (result, model, fb), cs) => (buildResponse result model fb, cs)
    | (.error _, cs) =>
      (buildResponse (heuristic_fallback req.text) "heuristic" true, cs)

/-- The response `classify` builds on the degraded path: the heuristic dict
rendered through the pydantic model with `model="heuristic"` and
`fallback_used=True`. -/
def heuristicResponse (t : String) : ClassifyResponse :=
  ⟨heurTags t, heurSummary t, mkRat 3 10, "heuristic", true⟩

/-- A process with no backend configured at all and local-first disabled. -/
def envNoBackendsA : Env := ⟨none, none, false, "m"⟩

/-- A process with no backend configured at all and local-first enabled. -/
def envNoBackendsB : Env := ⟨none, none, true, "m"⟩

/-- A local backend whose reply carries an out-of-range confidence and an
empty tag list; no remote backend. -/
def envBadRange : Env :=
  ⟨some (fun _ => .ok "\x7b\"tags\": [], \"summary\": \"\", \"confidence\": 2\x7d"),
   none, false, "qwen"⟩

/-- A local backend reporting confidence 0.5 beside a remote backend whose
every call fails: the configuration that exercises the escalation retry. -/
def envLowConfApiDown : Env :=
  ⟨some (fun _ => .ok "\x7b\"confidence\": 0.5\x7d"),
   some (fun _ => .error (.runtimeError "api down")), true, "qwen"⟩

/-- Raw local reply with confidence 0.95. -/
def contentHi : String :=
  "\x7b\"tags\": [\"t\"], \"summary\": \"s\", \"confidence\": 0.95\x7d"

/-- The decoded-and-defaulted value of `contentHi`. -/
def objHi : Json :=
  Json.obj [("tags", Json.arr [Json.str "t"]), ("summary", Json.str "s"),
            ("confidence", Json.num (mkRat 19 20))]

/-- Raw local reply with confidence 0.4. -/
def contentLo : String :=
  "\x7b\"tags\": [\"t\"], \"summary\": \"s\", \"confidence\": 0.4\x7d"

/-- The decoded-and-defaulted value of `contentLo`. -/
def objLo : Json :=
  Json.obj [("tags", Json.arr [Json.str "t"]), ("summary", Json.str "s"),
            ("confidence", Json.num (mkRat 2 5))]

/-- Raw remote reply with confidence 0.9. -/
def contentRemote : String :=
  "\x7b\"tags\": [\"r\"], \"summary\": \"rs\", \"confidence\": 0.9\x7d"

/-- The decoded-and-defaulted value of `contentRemote`. -/
def objRemote : Json :=
  Json.obj [("tags", Json.arr [Json.str "r"]), ("summary", Json.str "rs"),
            ("confidence", Json.num (mkRat 9 10))]

/-- Local-first process whose local backend answers confidently; the remote
client would fail if it were (wrongly) consulted. -/
def envLocalHi : Env :=
  ⟨some (fun _ => .ok contentHi),
   some (fun _ => .error (.runtimeError "remote should be idle")), true, "qwen"⟩

/-- Local-first process whose local backend answers with low confidence and
whose remote backend succeeds. -/
def envLoRemote : Env :=
  ⟨some (fun _ => .ok contentLo), some (fun _ => .ok contentRemote), true, "qwen"⟩

/-- A flagless request with ordinary text. -/
def reqPlain : ClassifyRequest :=
  ⟨"please classify this transcript", none, none, false, false⟩

/-- A local backend that replies with a JSON array instead of an object. -/
def envArrayReply : Env := ⟨some (fun _ => .ok "[1, 2]"), none, true, "qwen"⟩

/-- A local-only process used to exercise the `force_api` branch. -/
def envLocalOnly : Env := ⟨some (fun _ => .ok contentHi), none, true, "qwen"⟩

/-- An input with prose on both sides of a tagged fenced JSON block. -/
def proseWrapped : String :=
  "Sure! Here is the result:\n```json\n\x7b\"tags\": [\"a\"], \"summary\": \"s\", \"confidence\": 0.9\x7d\n```\nLet me know if you need anything else."

/-- The brace group captured inside `proseWrapped`. -/
def proseCapture : String :=
  "\x7b\"tags\": [\"a\"], \"summary\": \"s\", \"confidence\": 0.9\x7d"

lemma local_calls_cases (env : Env) (t : String) :
    (classify_with_local env t).2 = [] ∨ (classify_with_local env t).2 = [Call.toLocal] := by
  rcases h : env.local_client with _ | client
  · left
    simp [classify_with_local, h]
  · rcases hc : client (t.take 4000) with e | c <;> right <;>
      simp [classify_with_local, h, hc]

lemma api_calls_cases (env : Env) (t : String) :
    (classify_with_api env t).2 = [] ∨ (classify_with_api env t).2 = [Call.toApi] := by
  rcases h : env.anthropic_client with _ | client
  · left
    simp [classify_with_api, h]
  · rcases hc : client (t.take 4000) with e | c <;> right <;>
      simp [classify_with_api, h, hc]

lemma local_count (env : Env) (t : String) :
    (classify_with_local env t).2.count Call.toLocal ≤ 1 ∧
    (classify_with_local env t).2.count Call.toApi = 0 := by
  rcases local_calls_cases env t with h | h <;> rw [h] <;> constructor <;> decide

lemma api_count (env : Env) (t : String) :
    (classify_with_api env t).2.count Call.toApi ≤ 1 ∧
    (classify_with_api env t).2.count Call.toLocal = 0 := by
  rcases api_calls_cases env t with h | h <;> rw [h] <;> constructor <;> decide

lemma strListOf_map (l : List String) : strListOf (l.map Json.str) = .ok l := by
  induction l with
  | nil => rfl
  | cons a rest ih => simp [strListOf, ih, Except.map]

lemma buildHeuristic (t : String) :
    buildResponse (heuristic_fallback t) "heuristic" true = .ok (heuristicResponse t) := by
  simp [buildResponse, heuristic_fallback, dictGet, assocFind, asStrList, asStr, asNum,
        strListOf_map, heuristicResponse, bind, Except.bind, pure, Except.pure]

/-- C1: with no local and no remote adapter configured and neither force flag
set, the code raises `HTTPException(503, "No classification backend
configured")` inside the `try` block (first two conjuncts) — but the blanket
`except Exception` at classifier.py:207 catches it, so the caller receives a
200 with the Degraded Responder result, `model="heuristic"` and
`fallback_used=True`, not the service-unavailable condition the claim (and
the raise itself) intends (last two conjuncts). -/
theorem C1_no_backend_degrades :
    classifyTry envNoBackendsA ⟨"hello", none, none, false, false⟩ =
      (.error (.httpException 503 "No classification backend configured"), []) ∧
    classifyTry envNoBackendsB ⟨"hello", none, none, false, false⟩ =
      (.error (.httpException 503 "No classification backend configured"), []) ∧
    classify envNoBackendsA ⟨"hello", none, none, false, false⟩ =
      (.ok ⟨["uncategorized", "transcript", "unclassified", "short"],
            "hello", mkRat 3 10, "heuristic", true⟩, []) ∧
    classify envNoBackendsB ⟨"hello", none, none, false, false⟩ =
      (.ok ⟨["uncategorized", "transcript", "unclassified", "short"],
            "hello", mkRat 3 10, "heuristic", true⟩, []) :=
  ⟨rfl, rfl, rfl, rfl⟩

/-- C8: a request whose text is empty or whitespace-only fails with the 400
validation error before the `try` block, with no backend invoked (the call
list is empty) and no degraded conversion (the result is the error itself). -/
theorem C8_blank_text_validation (env : Env) (req : ClassifyRequest)
    (h : req.text = "" ∨ pyStrip req.text = "") :
    classify env req = (.error (.httpException 400 "Text cannot be empty"), []) := by
  unfold classify
  rw [if_pos h]

theorem C8_blank_text_validation_witness :
    ((" \n\t" : String) = "" ∨ pyStrip " \n\t" = "") ∧
    classify envNoBackendsB ⟨" \n\t", none, none, false, false⟩ =
      (.error (.httpException 400 "Text cannot be empty"), []) :=
  ⟨Or.inr (by decide), C8_blank_text_validation _ _ (Or.inr (by decide))⟩

/-- C10: a backend reply that is valid JSON but not an object — here the
array `[1, 2]` — is decoded by the Response Extractor without raising
`MalformedResponse`; the adapter then fails applying `setdefault` with an
`AttributeError` (not a `ValueError`/`MalformedResponse`); and at the public
interface that failure is still absorbed into the Degraded Responder's
result. -/
theorem C10_non_mapping_reply :
    parse_json_response "[1, 2]" = .ok (Json.arr [Json.num 1, Json.num 2]) ∧
    classify_with_local envArrayReply "hello world" =
      (.error (.attributeError "setdefault"), [Call.toLocal]) ∧
    (PyErr.attributeError "setdefault").isValueError = false ∧
    classify envArrayReply ⟨"hello world", none, none, true, false⟩ =
      (.ok ⟨["uncategorized", "transcript", "unclassified", "short"],
            "hello world", mkRat 3 10, "heuristic", true⟩, [Call.toLocal]) :=
  ⟨rfl, rfl, rfl, rfl⟩

/-- C2 counterexample: a local backend reply with `confidence` 2 and an empty
tag list flows through `classify` unchanged — the outcome has confidence 2
(outside [0.0, 1.0], as the trailing strict inequality records against the
bound 1) and 0 tags (below the claimed lower bound 1) — so the core performs
no clamping or validation of backend-produced values. -/
theorem C2_counterexample_unclamped :
    (classify envBadRange ⟨"hello", none, none, true, false⟩).1 =
      .ok ⟨([] : List String), "", 2, "qwen", false⟩ ∧
    (1 : ℚ) < 2 ∧ (0 : ℕ) < 1 :=
  ⟨rfl, by norm_num, by decide⟩

lemma localFirstBody_count (env : Env) (req : ClassifyRequest) :
    (localFirstBody env req).2.count Call.toLocal ≤ 1 ∧
    (localFirstBody env req).2.count Call.toApi ≤ 1 := by
  unfold localFirstBody
  rcases hl : classify_with_local env req.text with ⟨r, cs⟩
  obtain ⟨hco1, hco2⟩ := local_count env req.text
  rw [hl] at hco1 hco2
  dsimp only at hco1 hco2
  rcases r with e | result
  · dsimp only
    omega
  · dsimp only
    rcases hg : dictGet result "confidence" with e | conf
    · dsimp only
      omega
    · dsimp only
      rcases hlt : pyLtNum conf (mkRat 7 10) with e | islow
      · dsimp only
        omega
      · dsimp only
        by_cases hc : (islow && env.anthropic_client.isSome) = true
        · rw [if_pos hc]
          rcases ha : classify_with_api env req.text with ⟨r2, cs2⟩
          obtain ⟨ha1, ha2⟩ := api_count env req.text
          rw [ha] at ha1 ha2
          dsimp only at ha1 ha2
          rcases r2 with e2 | j2 <;> dsimp only <;> simp only [List.count_append] <;> omega
        · rw [if_neg hc]
          dsimp only
          omega

lemma localFirstTry_count (env : Env) (req : ClassifyRequest) :
    (localFirstTry env req).2.count Call.toLocal ≤ 1 ∧
    (localFirstTry env req).2.count Call.toApi ≤ 2 := by
  unfold localFirstTry
  rcases hb : localFirstBody env req with ⟨r, cs⟩
  obtain ⟨hb1, hb2⟩ := localFirstBody_count env req
  rw [hb] at hb1 hb2
  dsimp only at hb1 hb2
  rcases r with e | out
  · dsimp only
    by_cases hs : env.anthropic_client.isSome = true
    · rw [if_pos hs]
      rcases ha : classify_with_api env req.text with ⟨r2, cs2⟩
      obtain ⟨ha1, ha2⟩ := api_count env req.text
      rw [ha] at ha1 ha2
      dsimp only at ha1 ha2
      rcases r2 with e2 | j2 <;> dsimp only <;> simp only [List.count_append] <;> omega
    · rw [if_neg hs]
      dsimp only
      omega
  · dsimp only
    omega

lemma classifyTry_count (env : Env) (req : ClassifyRequest) :
    (classifyTry env req).2.count Call.toLocal ≤ 1 ∧
    (classifyTry env req).2.count Call.toApi ≤ 2 := by
  unfold classifyTry
  by_cases hfa : req.force_api = true
  · rw [if_pos hfa]
    rcases ha : classify_with_api env req.text with ⟨r, cs⟩
    obtain ⟨ha1, ha2⟩ := api_count env req.text
    rw [ha] at ha1 ha2
    dsimp only at ha1 ha2
    rcases r with e | j <;> dsimp only <;> omega
  · rw [if_neg hfa]
    by_cases hfl : req.force_local = true
    · rw [if_pos hfl]
      rcases hl : classify_with_local env req.text with ⟨r, cs⟩
      obtain ⟨hl1, hl2⟩ := local_count env req.text
      rw [hl] at hl1 hl2
      dsimp only at hl1 hl2
      rcases r with e | j <;> dsimp only <;> omega
    · rw [if_neg hfl]
      by_cases hlf : (env.use_local_first && env.local_client.isSome) = true
      · rw [if_pos hlf]
        exact localFirstTry_count env req
      · rw [if_neg hlf]
        by_cases hs : env.anthropic_client.isSome = true
        · rw [if_pos hs]
          rcases ha : classify_with_api env req.text with ⟨r, cs⟩
          obtain ⟨ha1, ha2⟩ := api_count env req.text
          rw [ha] at ha1 ha2
          dsimp only at ha1 ha2
          rcases r with e | j <;> dsimp only <;> omega
        · rw [if_neg hs]
          exact ⟨by decide, by decide⟩

/-- C3 (amended): within one request the local adapter is invoked at most
once, but the remote adapter may be invoked up to twice — the original
at-most-once claim fails on the escalation path (see the counterexample).
The bounds hold for every configuration and request. -/
theorem C3_call_bounds (env : Env) (req : ClassifyRequest) :
    (classify env req).2.count Call.toLocal ≤ 1 ∧
    (classify env req).2.count Call.toApi ≤ 2 := by
  unfold classify
  by_cases h : (req.text = "" ∨ pyStrip req.text = "")
  · rw [if_pos h]
    exact ⟨by decide, by decide⟩
  · rw [if_neg h]
    rcases ht : classifyTry env req with ⟨r, cs⟩
    obtain ⟨h1, h2⟩ := classifyTry_count env req
    rw [ht] at h1 h2
    dsimp only at h1 h2
    rcases r with e | ⟨result, model, fb⟩ <;> dsimp only <;> omega

/-- C3 counterexample: local-first with a low-confidence local result and a
failing remote backend makes the remote adapter network call twice in one
request — the escalation call at classifier.py:189 raises, is caught by the
inner `except` at 192, and classifier.py:194 calls the same backend again —
refuting the at-most-once claim. -/
theorem C3_counterexample_double_api :
    (classify envLowConfApiDown ⟨"hello world", none, none, false, false⟩).2 =
      [Call.toLocal, Call.toApi, Call.toApi] ∧
    [Call.toLocal, Call.toApi, Call.toApi].count Call.toApi = 2 :=
  ⟨rfl, rfl⟩

lemma heurTags_length (t : String) :
    1 ≤ (heurTags t).length ∧ (heurTags t).length ≤ 7 := by
  unfold heurTags
  split
  · decide
  · split <;> decide

lemma classify_degraded (env : Env) (req : ClassifyRequest)
    (ht : ¬(req.text = "" ∨ pyStrip req.text = ""))
    (e : PyErr) (cs : List Call)
    (hf : classifyTry env req = (.error e, cs)) :
    classify env req = (.ok (heuristicResponse req.text), cs) := by
  unfold classify
  rw [if_neg ht, hf]
  dsimp only
  rw [buildHeuristic]

/-- C2 (amended): whenever the orchestration falls back to the Degraded
Responder (any exception escaping the `try` block), the outcome's confidence
lies in [0.0, 1.0] and its tags count in [1, 7].  The unamended claim —
that this holds regardless of what a backend produced, because the core
clamps or validates — is false: backend results pass through unvalidated
(see the counterexample). -/
theorem C2_degraded_path_bounds (env : Env) (req : ClassifyRequest)
    (ht : ¬(req.text = "" ∨ pyStrip req.text = ""))
    (e : PyErr) (cs : List Call)
    (hf : classifyTry env req = (.error e, cs)) :
    classify env req = (.ok (heuristicResponse req.text), cs) ∧
    0 ≤ (heuristicResponse req.text).confidence ∧
    (heuristicResponse req.text).confidence ≤ 1 ∧
    1 ≤ (heuristicResponse req.text).tags.length ∧
    (heuristicResponse req.text).tags.length ≤ 7 := by
  refine ⟨classify_degraded env req ht e cs hf, ?_, ?_,
    (heurTags_length req.text).1, (heurTags_length req.text).2⟩
  · show (0 : ℚ) ≤ mkRat 3 10
    norm_num [mkRat, Rat.normalize]
  · show (mkRat 3 10 : ℚ) ≤ 1
    norm_num [mkRat, Rat.normalize]

theorem C2_degraded_path_bounds_witness :
    classifyTry envNoBackendsA reqPlain =
      (.error (.httpException 503 "No classification backend configured"), []) ∧
    classify envNoBackendsA reqPlain = (.ok (heuristicResponse reqPlain.text), []) ∧
    1 ≤ (heuristicResponse reqPlain.text).tags.length := by
  refine ⟨rfl, ?_, ?_⟩
  · exact (C2_degraded_path_bounds envNoBackendsA reqPlain (by decide)
      (.httpException 503 "No classification backend configured") [] rfl).1
  · exact (C2_degraded_path_bounds envNoBackendsA reqPlain (by decide)
      (.httpException 503 "No classification backend configured") [] rfl).2.2.2.1

/-- C6: `heuristic_fallback` is total and returns exactly the base tags
`["uncategorized", "transcript", "unclassified"]` plus `"short"` exactly when
the whitespace-token count is below 100, or `"long"` exactly when it exceeds
1000 (the cap at 7 never truncates, since at most 4 tags arise); the summary
is the first 50 tokens joined by single spaces with `"..."` appended exactly
when more than 50 tokens exist; and the confidence is exactly 0.3
(`mkRat 3 10`). -/
theorem C6_heuristic_responder (text : String) :
    heuristic_fallback text =
      Json.obj
        [("tags", Json.arr
            (((["uncategorized", "transcript", "unclassified"]) ++
              (if (pySplit text).length < 100 then ["short"]
               else if 1000 < (pySplit text).length then ["long"] else [])).map Json.str)),
         ("summary", Json.str
            ((" ".intercalate ((pySplit text).take 50)) ++
              (if 50 < (pySplit text).length then "..." else ""))),
         ("confidence", Json.num (mkRat 3 10))] := by
  have hmin : (pySplit text).take (min 50 (pySplit text).length) = (pySplit text).take 50 := by
    rcases Nat.le_total 50 (pySplit text).length with h | h
    · rw [Nat.min_eq_left h]
    · rw [Nat.min_eq_right h, List.take_length]
      exact (List.take_of_length_le h).symm
  have htags :
      ((["uncategorized", "transcript", "unclassified"] ++
        (if (pySplit text).length < 100 then ["short"]
         else if 1000 < (pySplit text).length then ["long"] else [])).take 7) =
      (["uncategorized", "transcript", "unclassified"] ++
        (if (pySplit text).length < 100 then ["short"]
         else if 1000 < (pySplit text).length then ["long"] else [])) := by
    split
    · rfl
    · split <;> rfl
  unfold heuristic_fallback heurTags heurSummary
  rw [hmin, htags]

/-- C5: when the request demands the remote backend (`force_api=true`), any
failure of the remote invocation — a transport error, a malformed reply, or
the backend being unconfigured — is not retried against the local backend:
the local adapter is never called (`Call.toLocal` is absent from the call
list produced by the remote attempt, which is the whole call list), and the
outcome is the Degraded Responder's result with producer `"heuristic"` and
`fallback_used=true`. -/
theorem C5_force_api_failure_degrades (env : Env) (req : ClassifyRequest)
    (hfa : req.force_api = true)
    (ht : ¬(req.text = "" ∨ pyStrip req.text = ""))
    (e : PyErr) (cs : List Call)
    (hf : classify_with_api env req.text = (.error e, cs)) :
    classify env req = (.ok (heuristicResponse req.text), cs) ∧
    (heuristicResponse req.text).model = "heuristic" ∧
    (heuristicResponse req.text).fallback_used = true ∧
    Call.toLocal ∉ cs := by
  have htry : classifyTry env req = (.error e, cs) := by
    unfold classifyTry
    rw [if_pos hfa, hf]
  have hmem : Call.toLocal ∉ cs := by
    have hc := api_calls_cases env req.text
    rw [hf] at hc
    dsimp only at hc
    rcases hc with h | h <;> subst h <;> simp
  exact ⟨classify_degraded env req ht e cs htry, rfl, rfl, hmem⟩

theorem C5_force_api_failure_degrades_witness :
    classify envLocalOnly ⟨"hello", none, none, false, true⟩ =
      (.ok (heuristicResponse "hello"), []) ∧
    Call.toLocal ∉ ([] : List Call) := by
  have h := C5_force_api_failure_degrades envLocalOnly ⟨"hello", none, none, false, true⟩
    rfl (by decide) (.runtimeError "Anthropic API not configured") [] rfl
  exact ⟨h.1, h.2.2.2⟩

/-- C9: when both `force_local` and `force_api` are set, the remote branch
takes precedence: the behaviour is identical to the same request with only
`force_api` set, and the local adapter is never invoked. -/
theorem C9_force_flag_precedence (env : Env) (req : ClassifyRequest)
    (hfa : req.force_api = true) (_hfl : req.force_local = true) :
    classify env req =
      classify env ⟨req.text, req.source, req.filepath, false, true⟩ ∧
    Call.toLocal ∉ (classify env req).2 := by
  have htry : classifyTry env req =
      classifyTry env ⟨req.text, req.source, req.filepath, false, true⟩ := by
    unfold classifyTry
    rw [if_pos hfa]
    dsimp only
    rw [if_pos rfl]
  have hcalls : (classify env req).2 = [] ∨ (classify env req).2 = (classify_with_api env req.text).2 := by
    unfold classify
    by_cases hb : (req.text = "" ∨ pyStrip req.text = "")
    · rw [if_pos hb]
      exact Or.inl rfl
    · rw [if_neg hb]
      have h2 : classifyTry env req = classifyTry env req := rfl
      rcases htr : classifyTry env req with ⟨r, cs⟩
      have hcs : cs = (classify_with_api env req.text).2 := by
        revert htr
        unfold classifyTry
        rw [if_pos hfa]
        rcases ha : classify_with_api env req.text with ⟨r2, cs2⟩
        rcases r2 with e2 | j2 <;> dsimp only <;> intro htr <;>
          injection htr with h1 h2 <;> simp [h2]
      rcases r with e | ⟨result, model, fb⟩ <;> dsimp only <;> exact Or.inr hcs
  constructor
  · unfold classify
    rw [htry]
  · have hc := api_calls_cases env req.text
    rcases hcalls with h | h <;> rw [h]
    · simp
    · rcases hc with h2 | h2 <;> rw [h2] <;> simp

theorem C9_force_flag_precedence_witness :
    classify envLocalOnly ⟨"hello", none, none, true, true⟩ =
      classify envLocalOnly ⟨"hello", none, none, false, true⟩ ∧
    Call.toLocal ∉ (classify envLocalOnly ⟨"hello", none, none, true, true⟩).2 :=
  C9_force_flag_precedence envLocalOnly ⟨"hello", none, none, true, true⟩ rfl rfl

/-- C4: with local-first enabled, a local adapter configured and neither
force flag set — when the local adapter succeeds and its decoded confidence
`q` satisfies `0.7 ≤ q`, the outcome is the local result rendered with the
local model identifier and `fallback_used=false`, and the only network call
is the local one (the remote adapter is not called); when `q < 0.7` and a
remote adapter is configured and succeeds, the outcome is the remote result
with `fallback_used=true` (the local result is discarded), after exactly one
local and one remote call. -/
theorem C4_local_first_policy (env : Env) (req : ClassifyRequest)
    (f : String → Except PyErr String)
    (hl : env.local_client = some f)
    (hlf : env.use_local_first = true)
    (hfa : req.force_api = false) (hfl : req.force_local = false)
    (ht : ¬(req.text = "" ∨ pyStrip req.text = ""))
    (content : String) (j : Json) (q : ℚ)
    (hc : f (req.text.take 4000) = .ok content)
    (hp : parseAndDefault content = .ok j)
    (hq : dictGet j "confidence" = .ok (Json.num q)) :
    (mkRat 7 10 ≤ q →
      classify env req = (buildResponse j env.local_model false, [Call.toLocal])) ∧
    (q < mkRat 7 10 →
      ∀ g : String → Except PyErr String, env.anthropic_client = some g →
      ∀ (content2 : String) (j2 : Json),
        g (req.text.take 4000) = .ok content2 → parseAndDefault content2 = .ok j2 →
        classify env req =
          (buildResponse j2 API_MODEL true, [Call.toLocal, Call.toApi])) := by
  have hloc : classify_with_local env req.text = (.ok j, [Call.toLocal]) := by
    unfold classify_with_local
    simp only [hl, hc, hp]
  constructor
  · intro h7
    have hlt : pyLtNum (Json.num q) (mkRat 7 10) = .ok false := by
      show Except.ok (decide (q < mkRat 7 10)) = Except.ok false
      rw [decide_eq_false_iff_not.mpr (not_lt.mpr h7)]
    have hbody : localFirstBody env req =
        (.ok (j, env.local_model, false), [Call.toLocal]) := by
      unfold localFirstBody
      simp [hloc, hq, hlt]
    have htry : classifyTry env req =
        (.ok (j, env.local_model, false), [Call.toLocal]) := by
      unfold classifyTry
      rw [if_neg (by simp [hfa]), if_neg (by simp [hfl]),
          if_pos (by simp [hlf, hl] : (env.use_local_first && env.local_client.isSome) = true)]
      unfold localFirstTry
      simp only [hbody]
    unfold classify
    rw [if_neg ht]
    simp only [htry]
  · intro h7 g hg content2 j2 hc2 hp2
    have hlt : pyLtNum (Json.num q) (mkRat 7 10) = .ok true := by
      show Except.ok (decide (q < mkRat 7 10)) = Except.ok true
      rw [decide_eq_true h7]
    have hapi : classify_with_api env req.text = (.ok j2, [Call.toApi]) := by
      unfold classify_with_api
      simp only [hg, hc2, hp2]
    have hbody : localFirstBody env req =
        (.ok (j2, API_MODEL, true), [Call.toLocal, Call.toApi]) := by
      unfold localFirstBody
      simp [hloc, hq, hlt, hg, hapi]
    have htry : classifyTry env req =
        (.ok (j2, API_MODEL, true), [Call.toLocal, Call.toApi]) := by
      unfold classifyTry
      rw [if_neg (by simp [hfa]), if_neg (by simp [hfl]),
          if_pos (by simp [hlf, hl] : (env.use_local_first && env.local_client.isSome) = true)]
      unfold localFirstTry
      simp only [hbody]
    unfold classify
    rw [if_neg ht]
    simp only [htry]

theorem C4_local_first_policy_witness :
    classify envLocalHi reqPlain =
      (.ok ⟨["t"], "s", mkRat 19 20, "qwen", false⟩, [Call.toLocal]) ∧
    classify envLoRemote reqPlain =
      (.ok ⟨["r"], "rs", mkRat 9 10, API_MODEL, true⟩, [Call.toLocal, Call.toApi]) := by
  constructor
  · have h := (C4_local_first_policy envLocalHi reqPlain (fun _ => .ok contentHi) rfl rfl rfl rfl
      (by decide) contentHi objHi (mkRat 19 20) rfl rfl rfl).1 (by decide)
    rw [h]
    rfl
  · have h := (C4_local_first_policy envLoRemote reqPlain (fun _ => .ok contentLo) rfl rfl rfl rfl
      (by decide) contentLo objLo (mkRat 2 5) rfl rfl rfl).2 (by decide)
      (fun _ => .ok contentRemote) rfl contentRemote objRemote rfl rfl
    rw [h]
    rfl

lemma braceFrom_shape (r cap : List Char) (h : braceFrom r = some cap) :
    ∃ content, cap = '\x7b' :: (content ++ ['\x7d']) := by
  unfold braceFrom at h
  split at h
  · next tail heq =>
    rcases Option.map_eq_some'.mp h with ⟨content, hc, hcap⟩
    exact ⟨content, hcap.symm⟩
  · exact absurd h (by simp)

lemma matchAt_shape (cs cap : List Char) (h : matchAt cs = some cap) :
    ∃ content, cap = '\x7b' :: (content ++ ['\x7d']) := by
  unfold matchAt at h
  split at h
  · dsimp only at h
    split at h
    · next cap2 heq =>
      injection h with h2
      subst h2
      split at heq
      · exact braceFrom_shape _ _ heq
      · exact absurd heq (by simp)
    · next heq => exact braceFrom_shape _ _ h
  · exact absurd h (by simp)

lemma searchFence_shape (cs cap : List Char) (h : searchFence cs = some cap) :
    ∃ content, cap = '\x7b' :: (content ++ ['\x7d']) := by
  induction cs with
  | nil => exact absurd h (by simp [searchFence])
  | cons c rest ih =>
    unfold searchFence at h
    split at h
    · next cap2 heq =>
      injection h with h2
      subst h2
      exact matchAt_shape _ _ heq
    · exact ih h

lemma stripLeading_brace (l : List Char) :
    stripLeadingFenceL ('\x7b' :: l) = '\x7b' :: l := rfl

lemma stripTrailing_brace (content : List Char) :
    stripTrailingFenceL ('\x7b' :: (content ++ ['\x7d'])) =
      '\x7b' :: (content ++ ['\x7d']) := by
  have hrev : ('\x7b' :: (content ++ ['\x7d'])).reverse =
      '\x7d' :: (content.reverse ++ ['\x7b']) := by
    simp
  have h1 : trailsWith fenceTok ('\x7b' :: (content ++ ['\x7d'])) = false := by
    unfold trailsWith
    rw [hrev]
    rfl
  have h2 : trailsWith (fenceTok ++ ['\n']) ('\x7b' :: (content ++ ['\x7d'])) = false := by
    unfold trailsWith
    rw [hrev]
    rfl
  unfold stripTrailingFenceL
  rw [h1, h2]
  rfl

/-- C7: the Response Extractor.  First conjunct: the spec's concrete example
decodes to exactly the object with tags `["a"]`, summary `"s"`, confidence
0.9.  Second conjunct: whenever the fenced-block search (on the stripped
input) finds a captured brace group, the whole extractor's result is exactly
the decode of that capture — all surrounding stray text is ignored.  Third
conjunct: every failure is a `MalformedResponse` (`ValueError`) wrapping the
decode error of the normalised string, occurring exactly when that string is
syntactically invalid. -/
theorem C7_response_extractor :
    (parse_json_response "```json\n\x7b\"tags\":[\"a\"],\"summary\":\"s\",\"confidence\":0.9\x7d\n```" =
      .ok (Json.obj [("tags", Json.arr [Json.str "a"]), ("summary", Json.str "s"),
                     ("confidence", Json.num (mkRat 9 10))])) ∧
    (∀ (t : String) (cap : List Char), searchFence (pyStripL t.data) = some cap →
      parse_json_response t = (jsonLoadsL cap).mapError
        (fun e => PyErr.valueError ("Failed to parse JSON: " ++ e))) ∧
    (∀ (t : String) (e : PyErr), parse_json_response t = .error e →
      ∃ msg, e = PyErr.valueError ("Failed to parse JSON: " ++ msg) ∧
        jsonLoadsL (normalizeText t) = .error msg) := by
  refine ⟨rfl, ?_, ?_⟩
  · intro t cap h
    obtain ⟨content, rfl⟩ := searchFence_shape _ _ h
    unfold parse_json_response normalizeText
    dsimp only
    rw [h]
    dsimp only
    rw [stripLeading_brace, stripTrailing_brace]
  · intro t e h
    unfold parse_json_response at h
    cases hj : jsonLoadsL (normalizeText t) with
    | ok v =>
      rw [hj] at h
      exact absurd h (by simp [Except.mapError])
    | error m =>
      rw [hj] at h
      simp only [Except.mapError] at h
      injection h with h2
      exact ⟨m, h2.symm, rfl⟩

theorem C7_response_extractor_witness :
    searchFence (pyStripL proseWrapped.data) = some proseCapture.data ∧
    parse_json_response proseWrapped = (jsonLoadsL proseCapture.data).mapError
      (fun e => PyErr.valueError ("Failed to parse JSON: " ++ e)) ∧
    parse_json_response proseWrapped =
      .ok (Json.obj [("tags", Json.arr [Json.str "a"]), ("summary", Json.str "s"),
                     ("confidence", Json.num (mkRat 9 10))]) :=
  ⟨rfl, C7_response_extractor.2.1 proseWrapped proseCapture.data rfl, rfl⟩
